import Mathlib

/-!
Verification of the portfolio-optimization core of `risk_toolkit.py`
(functions `portfolio_return`, `portfolio_vol`, `plot_ef2`, `minimize_vol`,
`optimal_weights`, `gmv`, `plot_ef`, `msr`).

Modelling conventions:
* numpy arrays of floats are modelled as `List ℚ` (matrices as `List (List ℚ)`);
  float values produced by non-rational operations (`** 0.5`, division) live in
  `PyFloat`, which models the IEEE outcomes numpy actually produces: a real
  value, `nan`, or a signed infinity (numpy float operations warn but never
  raise on a negative radicand or a zero divisor).
* the external call `scipy.optimize.minimize(..., method='SLSQP', ...)` is
  modelled by an oracle of type `SLSQP := MinimizeProblem → OptimizeResult`;
  the source builds the problem (objective, initial guess, bounds,
  constraints), hands it to that external routine, and returns `results.x`
  without inspecting `results.success`. This composition (`minimize_vol`,
  `msr`) is faithful whenever the objective evaluations inside the solve
  succeed, i.e. for dimension-compatible inputs; `minimize_vol_run` extends it
  with the in-solve error path, where a numpy ValueError raised by an
  objective evaluation on shape-incompatible inputs propagates out of the
  call before `results.x` is ever reached.
-/

/-- Value of a numpy floating-point computation: a real number, NaN, or a
signed infinity. -/
inductive PyFloat where
  | real : ℝ → PyFloat
  | nan : PyFloat
  | posInf : PyFloat
  | negInf : PyFloat

/-- Dot product of two rational vectors, `a.T @ b` for equal-length arrays. -/
def dot (a b : List ℚ) : ℚ :=
  (List.zipWith (fun x y => x * y) a b).sum

/-- Matrix-vector product `C @ v`: one dot product per row. -/
def matvec (C : List (List ℚ)) (v : List ℚ) : List ℚ :=
  C.map (fun row => dot row v)

/-- The radicand `weights.T @ covmat @ weights` of `portfolio_vol`. -/
def quadForm (weights : List ℚ) (covmat : List (List ℚ)) : ℚ :=
  dot weights (matvec covmat weights)

/-- numpy semantics of `x ** 0.5` on a float64: the real square root when the
radicand is nonnegative, NaN otherwise (numpy emits a RuntimeWarning and
returns NaN, it does not raise). -/
noncomputable def pyPowHalf (x : ℚ) : PyFloat :=
  if 0 ≤ x then PyFloat.real (Real.sqrt (x : ℝ)) else PyFloat.nan

/-- numpy semantics of float64 division `a / v` where the numerator is the
rational `a`: division by a real zero yields NaN (0/0) or a signed infinity,
never an exception; division of a finite number by an infinity yields 0. -/
noncomputable def pyDiv (a : ℚ) : PyFloat → PyFloat
  | PyFloat.real b =>
      if b = 0 then
        (if a = 0 then PyFloat.nan
         else if 0 < a then PyFloat.posInf else PyFloat.negInf)
      else PyFloat.real ((a : ℝ) / b)
  | PyFloat.nan => PyFloat.nan
  | PyFloat.posInf => PyFloat.real 0
  | PyFloat.negInf => PyFloat.real 0

/-- IEEE negation of a numpy float value. -/
def pyNeg : PyFloat → PyFloat
  | PyFloat.real r => PyFloat.real (-r)
  | PyFloat.nan => PyFloat.nan
  | PyFloat.posInf => PyFloat.negInf
  | PyFloat.negInf => PyFloat.posInf

/-- IEEE multiplication of a numpy float value by the real scalar `a` on the
left: `a * nan = nan`, `a * (±inf)` follows the sign of `a` and is NaN when
`a = 0`. -/
noncomputable def pyMulSR (a : ℝ) : PyFloat → PyFloat
  | PyFloat.real r => PyFloat.real (a * r)
  | PyFloat.nan => PyFloat.nan
  | PyFloat.posInf =>
      if 0 < a then PyFloat.posInf else if a < 0 then PyFloat.negInf else PyFloat.nan
  | PyFloat.negInf =>
      if 0 < a then PyFloat.negInf else if a < 0 then PyFloat.posInf else PyFloat.nan

/-- Source `portfolio_return(weights, returns)`: `weights.T @ returns`. -/
def portfolio_return (weights returns : List ℚ) : ℚ :=
  dot weights returns

/-- Source `portfolio_vol(weights, covmat)`:
`(weights.T @ covmat @ weights) ** 0.5`. -/
noncomputable def portfolio_vol (weights : List ℚ) (covmat : List (List ℚ)) : PyFloat :=
  pyPowHalf (quadForm weights covmat)

/-- numpy `arr.min()` for a nonempty array (the empty case never occurs in the
claims; numpy raises on it). -/
def npMin : List ℚ → ℚ
  | [] => 0
  | x :: xs => xs.foldl min x

/-- numpy `arr.max()` for a nonempty array. -/
def npMax : List ℚ → ℚ
  | [] => 0
  | x :: xs => xs.foldl max x

/-- numpy `np.linspace(start, stop, num)` with the default inclusive endpoint:
`num` evenly spaced samples `start + i * (stop - start) / (num - 1)`. -/
def linspace (start stop : ℚ) (num : ℕ) : List ℚ :=
  if num = 0 then []
  else if num = 1 then [start]
  else (List.range num).map (fun i : ℕ => start + (i : ℚ) * ((stop - start) / ((num : ℚ) - 1)))

/-- A scipy constraint dict `{'type': ..., 'fun': ...}` as passed to
`scipy.optimize.minimize`. -/
structure PyConstraint where
  ctype : String
  cfun : List ℚ → ℚ

/-- The data `minimize(objective, init_guess, method='SLSQP', constraints=...,
bounds=...)` receives from the source functions. -/
structure MinimizeProblem where
  objective : List ℚ → PyFloat
  init_guess : List ℚ
  bounds : List (ℚ × ℚ)
  constraints : List PyConstraint

/-- The `OptimizeResult` object scipy returns: the final iterate `x`, the
convergence flag `success`, and the diagnostic `message`. scipy returns this
object even when the solver fails to converge; it raises no exception. -/
structure OptimizeResult where
  x : List ℚ
  success : Bool
  message : String

/-- The external SLSQP solver, abstracted as an oracle from the optimization
problem to the result object. -/
def SLSQP : Type :=
  MinimizeProblem → OptimizeResult

/-- A solver oracle that returns a fixed result for every problem; used to
instantiate theorems at concrete scipy outcomes. -/
def constSolver (x : List ℚ) (success : Bool) (message : String) : SLSQP :=
  fun _ => ⟨x, success, message⟩

/-- The optimization problem `minimize_vol` builds (source lines 201-220):
objective `portfolio_vol(·, cov)`, equal-weight initial guess, `[0,1]` bounds
per asset, and the two equality constraints `return_is_target` and
`weights_sum_to_1`. -/
noncomputable def minVolProblem (target_return : ℚ) (er : List ℚ) (cov : List (List ℚ)) :
    MinimizeProblem :=
  let n := er.length
  let init_guess := List.replicate n (1 / (n : ℚ))
  let bounds := List.replicate n ((0 : ℚ), (1 : ℚ))
  let return_is_target : PyConstraint :=
    ⟨"eq", fun weights => target_return - portfolio_return weights er⟩
  let weights_sum_to_1 : PyConstraint :=
    ⟨"eq", fun weights => weights.sum - 1⟩
  ⟨fun weights => portfolio_vol weights cov, init_guess, bounds,
    [return_is_target, weights_sum_to_1]⟩

/-- Source `minimize_vol(target_return, er, cov)`: build the constrained
problem, invoke the external SLSQP solver, and return `results.x`. The source
performs no input validation and never inspects `results.success`. This
composition models the call on inputs where the objective evaluations inside
the solve succeed (dimension-compatible shapes); `minimize_vol_run` below adds
the error path where an objective evaluation raises. -/
noncomputable def minimize_vol (slsqp : SLSQP) (target_return : ℚ) (er : List ℚ)
    (cov : List (List ℚ)) : List ℚ :=
  (slsqp (minVolProblem target_return er cov)).x

/-- Source `neg_sharpe_ratio(weights, riskfree_rate, er, cov)` (nested in
`msr`): `-(r - riskfree_rate) / vol` with `r = portfolio_return(weights, er)`
and `vol = portfolio_vol(weights, cov)`. -/
noncomputable def neg_sharpe_ratio (weights : List ℚ) (riskfree_rate : ℚ) (er : List ℚ)
    (cov : List (List ℚ)) : PyFloat :=
  pyNeg (pyDiv (portfolio_return weights er - riskfree_rate) (portfolio_vol weights cov))

/-- The optimization problem `msr` builds (source lines 285-307): objective
`neg_sharpe_ratio`, equal-weight initial guess, `[0,1]` bounds per asset, and
the single equality constraint `weights_sum_to_1`. -/
noncomputable def msrProblem (riskfree_rate : ℚ) (er : List ℚ) (cov : List (List ℚ)) :
    MinimizeProblem :=
  let n := er.length
  let init_guess := List.replicate n (1 / (n : ℚ))
  let bounds := List.replicate n ((0 : ℚ), (1 : ℚ))
  let weights_sum_to_1 : PyConstraint :=
    ⟨"eq", fun weights => weights.sum - 1⟩
  ⟨fun weights => neg_sharpe_ratio weights riskfree_rate er cov, init_guess, bounds,
    [weights_sum_to_1]⟩

/-- Source `msr(riskfree_rate, er, cov)`: build the problem, invoke SLSQP,
return `results.x` unconditionally. -/
noncomputable def msr (slsqp : SLSQP) (riskfree_rate : ℚ) (er : List ℚ)
    (cov : List (List ℚ)) : List ℚ :=
  (slsqp (msrProblem riskfree_rate er cov)).x

/-- Source `gmv(cov)`: `msr(0, np.repeat(1, n), cov)` with `n = cov.shape[0]`. -/
noncomputable def gmv (slsqp : SLSQP) (cov : List (List ℚ)) : List ℚ :=
  msr slsqp 0 (List.replicate cov.length 1) cov

/-- Source `optimal_weights(er, cov, n_points)`: one `minimize_vol` call per
target return in `np.linspace(er.min(), er.max(), n_points)`. -/
noncomputable def optimal_weights (slsqp : SLSQP) (er : List ℚ) (cov : List (List ℚ))
    (n_points : ℕ) : List (List ℚ) :=
  (linspace (npMin er) (npMax er) n_points).map
    (fun target_return => minimize_vol slsqp target_return er cov)

/-- The `rets` column of the frontier DataFrame built by `plot_ef` (source
line 246): realized portfolio returns of the optimized weight vectors. -/
noncomputable def plot_ef_rets (slsqp : SLSQP) (er : List ℚ) (cov : List (List ℚ))
    (n_points : ℕ) : List ℚ :=
  (optimal_weights slsqp er cov n_points).map (fun w => portfolio_return w er)

/-- The `vols` column of the frontier DataFrame built by `plot_ef` (source
line 247): volatilities of the optimized weight vectors. -/
noncomputable def plot_ef_vols (slsqp : SLSQP) (er : List ℚ) (cov : List (List ℚ))
    (n_points : ℕ) : List PyFloat :=
  (optimal_weights slsqp er cov n_points).map (fun w => portfolio_vol w cov)

/-- Source `plot_ef2(er, cov, n_points)`: the validity check on line 186 is
`if er.shape[0] != 2 or er.shape[0] != 2` — both disjuncts test `er` — and on
failure raises `ValueError("plot_ef2 can only plot 2-asset frontiers")`;
otherwise the two-asset frontier data `(rets, vols)` over the weight grid
`[w, 1-w]`, `w ∈ linspace(0, 1, n_points)`, is produced. -/
noncomputable def plot_ef2 (er : List ℚ) (cov : List (List ℚ)) (n_points : ℕ) :
    Except String (List ℚ × List PyFloat) :=
  if er.length ≠ 2 ∨ er.length ≠ 2 then
    Except.error "plot_ef2 can only plot 2-asset frontiers"
  else
    let weights := (linspace 0 1 n_points).map (fun w => [w, 1 - w])
    let rets := weights.map (fun w => portfolio_return w er)
    let vols := weights.map (fun w => portfolio_vol w cov)
    Except.ok (rets, vols)

/-- numpy evaluation of the matmul chain `weights.T @ covmat @ weights` with
shape checking: the chain is defined exactly when `covmat` is a square matrix
whose dimension equals the length of `weights`; any other shape makes numpy
raise a ValueError (modelled as `Except.error`) — the mismatch is never
broadcast or coerced. On compatible shapes the value is `quadForm`. -/
def npQuadForm (weights : List ℚ) (covmat : List (List ℚ)) : Except String ℚ :=
  if covmat.length = weights.length ∧ ∀ row ∈ covmat, row.length = weights.length then
    Except.ok (quadForm weights covmat)
  else Except.error "ValueError: matmul: input operand shapes are not aligned"

/-- Model of a `portfolio_vol` evaluation including numpy's shape errors: the
matmul raises a ValueError on mismatched dimensions; on compatible shapes the
result is `pyPowHalf` of the radicand, exactly as in `portfolio_vol`. -/
noncomputable def portfolio_vol_run (weights : List ℚ) (covmat : List (List ℚ)) :
    Except String PyFloat :=
  (npQuadForm weights covmat).map pyPowHalf

/-- Model of the full `minimize_vol` call including the in-solve error path
that the `SLSQP` oracle alone does not carry: scipy's SLSQP evaluates the
objective `portfolio_vol(·, cov)` at the initial guess `np.repeat(1/n, n)`
(`n = er.shape[0]`) as its first step of the solve; a numpy ValueError raised
there propagates out of `minimize_vol`, which then never reaches
`return results.x`. When the shapes are compatible every objective evaluation
yields a `PyFloat` value (never an exception), the solver runs, and the call
returns `results.x`, i.e. `minimize_vol`. -/
noncomputable def minimize_vol_run (slsqp : SLSQP) (target_return : ℚ) (er : List ℚ)
    (cov : List (List ℚ)) : Except String (List ℚ) :=
  let n := er.length
  let init_guess := List.replicate n (1 / (n : ℚ))
  match portfolio_vol_run init_guess cov with
  | Except.error e => Except.error e
  | Except.ok _ => Except.ok (minimize_vol slsqp target_return er cov)

/-! ## C5: GMV as a special invocation of the Max-Sharpe solver -/

/-- C5: for an N×N covariance matrix, `gmv cov` equals the invocation
`msr 0 (replicate N 1) cov` of the Maximum-Sharpe-Ratio solver with risk-free
rate 0 and the uniform all-ones expected-returns vector of length N — GMV is
this special invocation of the same solver, not a separate numerical
routine. -/
theorem gmv_is_msr_special_case (slsqp : SLSQP) (N : ℕ) (cov : List (List ℚ))
    (hN : cov.length = N) :
    gmv slsqp cov = msr slsqp 0 (List.replicate N 1) cov := by
  subst hN; rfl

/-- Witness for C5 at a concrete 2×2 covariance matrix and a concrete solver
outcome. -/
theorem gmv_is_msr_special_case_witness :
    [[(1 : ℚ), 0], [0, 1]].length = 2 ∧
      gmv (constSolver [1/2, 1/2] true "Optimization terminated successfully")
          [[(1 : ℚ), 0], [0, 1]] =
        msr (constSolver [1/2, 1/2] true "Optimization terminated successfully") 0
          (List.replicate 2 1) [[(1 : ℚ), 0], [0, 1]] :=
  ⟨rfl, gmv_is_msr_special_case
    (constSolver [1/2, 1/2] true "Optimization terminated successfully") 2
    [[(1 : ℚ), 0], [0, 1]] rfl⟩

/-! ## C10: the `plot_ef2` validity check -/

/-- C10: `plot_ef2` produces its ValueError exactly when the expected-returns
vector does not have length 2; both disjuncts of the source condition test
`er.shape[0]`, so the check holds or fails identically for every covariance
matrix `cov`, of any shape whatsoever. -/
theorem plot_ef2_error_iff_er_length_ne_two (er : List ℚ) (cov : List (List ℚ))
    (n_points : ℕ) :
    plot_ef2 er cov n_points = Except.error "plot_ef2 can only plot 2-asset frontiers" ↔
      er.length ≠ 2 := by
  unfold plot_ef2
  by_cases h : er.length = 2
  · simp [h]
  · simp [h]

/-! ## C1: behaviour of `minimize_vol` and `msr` on solver failure -/

/-- C1 counterexample: a non-converged SLSQP outcome (`success = False` with a
diagnostic message) still makes `minimize_vol` and `msr` hand the solver's
final iterate `results.x` back to the caller as a weight vector — the code
never raises an OptimizationError (no such exception exists in the source). -/
theorem minvol_msr_return_weights_on_failure :
    (constSolver [1/2, 1/2] false "Iteration limit exceeded"
        (minVolProblem (3/40) [1/20, 1/10] [[1/100, 0], [0, 1/25]])).success = false ∧
      minimize_vol (constSolver [1/2, 1/2] false "Iteration limit exceeded") (3/40)
        [1/20, 1/10] [[1/100, 0], [0, 1/25]] = [1/2, 1/2] ∧
      msr (constSolver [1/2, 1/2] false "Iteration limit exceeded") 0
        [1/20, 1/10] [[1/100, 0], [0, 1/25]] = [1/2, 1/2] :=
  ⟨rfl, rfl, rfl⟩

/-- C1 amended: when the constrained solver fails to converge (its result
carries `success = False` and a diagnostic message), `minimize_vol` and `msr`
do not fail: each still returns the solver's `results.x` to the caller
unconditionally. -/
theorem minvol_msr_ignore_success (slsqp : SLSQP) (target_return riskfree_rate : ℚ)
    (er : List ℚ) (cov : List (List ℚ))
    (hfail : (slsqp (minVolProblem target_return er cov)).success = false)
    (hfail2 : (slsqp (msrProblem riskfree_rate er cov)).success = false) :
    minimize_vol slsqp target_return er cov =
        (slsqp (minVolProblem target_return er cov)).x ∧
      msr slsqp riskfree_rate er cov = (slsqp (msrProblem riskfree_rate er cov)).x :=
  ⟨rfl, rfl⟩

/-- Witness for the amended C1 at a concrete failing solver outcome. -/
theorem minvol_msr_ignore_success_witness :
    (constSolver [1/2, 1/2] false "Iteration limit exceeded"
        (minVolProblem 2 [1/20, 1/10] [[1/100, 0], [0, 1/25]])).success = false ∧
      minimize_vol (constSolver [1/2, 1/2] false "Iteration limit exceeded") 2
          [1/20, 1/10] [[1/100, 0], [0, 1/25]] =
        (constSolver [1/2, 1/2] false "Iteration limit exceeded"
          (minVolProblem 2 [1/20, 1/10] [[1/100, 0], [0, 1/25]])).x ∧
      msr (constSolver [1/2, 1/2] false "Iteration limit exceeded") 0
          [1/20, 1/10] [[1/100, 0], [0, 1/25]] =
        (constSolver [1/2, 1/2] false "Iteration limit exceeded"
          (msrProblem 0 [1/20, 1/10] [[1/100, 0], [0, 1/25]])).x :=
  ⟨rfl,
    (minvol_msr_ignore_success (constSolver [1/2, 1/2] false "Iteration limit exceeded")
      2 0 [1/20, 1/10] [[1/100, 0], [0, 1/25]] rfl rfl).1,
    (minvol_msr_ignore_success (constSolver [1/2, 1/2] false "Iteration limit exceeded")
      2 0 [1/20, 1/10] [[1/100, 0], [0, 1/25]] rfl rfl).2⟩

/-! ## C3: what a dimension mismatch actually raises in `minimize_vol` -/

/-- C3 counterexample: with an expected-returns vector of length 2 and a 3×3
covariance matrix, the call raises numpy's ValueError out of the first
objective evaluation inside the solve — not a ShapeError (no such check or
exception exists in the source), and not before the optimization begins —
while the same call with a matched 2×2 covariance matrix returns the solver's
weight vector. -/
theorem minvol_mismatch_raises_valueerror :
    minimize_vol_run (constSolver [1/2, 1/2] true "Optimization terminated successfully")
        (3/40) [1/20, 1/10] [[1, 0, 0], [0, 1, 0], [0, 0, 1]] =
      Except.error "ValueError: matmul: input operand shapes are not aligned" ∧
      minimize_vol_run (constSolver [1/2, 1/2] true "Optimization terminated successfully")
        (3/40) [1/20, 1/10] [[1/100, 0], [0, 1/25]] = Except.ok [1/2, 1/2] :=
  ⟨rfl, rfl⟩

/-- C3 amended: no ShapeError is raised and no dimension validation happens
before optimization begins — no such exception exists in the repository.
Instead, for every input whose shapes are incompatible with the matmul chain
(covariance dimension different from the expected-returns length, or a row of
the wrong length), the numpy ValueError raised by the objective evaluation
inside the solve propagates out of `minimize_vol`: nothing is silently coerced
or broadcast, and no weight vector is returned on such inputs. -/
theorem minvol_mismatch_valueerror (slsqp : SLSQP) (target_return : ℚ) (er : List ℚ)
    (cov : List (List ℚ))
    (hbad : ¬ (cov.length = er.length ∧ ∀ row ∈ cov, row.length = er.length)) :
    minimize_vol_run slsqp target_return er cov =
      Except.error "ValueError: matmul: input operand shapes are not aligned" := by
  simp only [minimize_vol_run, portfolio_vol_run, npQuadForm, List.length_replicate]
  rw [if_neg hbad]
  rfl

/-- Witness for the amended C3 at the concrete mismatched input. -/
theorem minvol_mismatch_valueerror_witness :
    (¬ ([[(1 : ℚ), 0, 0], [0, 1, 0], [0, 0, 1]].length = [1/20, (1 : ℚ)/10].length ∧
        ∀ row ∈ [[(1 : ℚ), 0, 0], [0, 1, 0], [0, 0, 1]],
          row.length = [1/20, (1 : ℚ)/10].length)) ∧
      minimize_vol_run (constSolver [1/3, 1/3] true "Optimization terminated successfully")
          (3/40) [1/20, 1/10] [[1, 0, 0], [0, 1, 0], [0, 0, 1]] =
        Except.error "ValueError: matmul: input operand shapes are not aligned" :=
  ⟨by decide,
    minvol_mismatch_valueerror
      (constSolver [1/3, 1/3] true "Optimization terminated successfully") (3/40)
      [1/20, 1/10] [[1, 0, 0], [0, 1, 0], [0, 0, 1]] (by decide)⟩

/-! ## C2: `portfolio_vol` on a negative radicand -/

/-- C2 counterexample: for the weight vector `[1]` and the non-PSD covariance
`[[-1]]` the radicand is `-1 < 0` and `portfolio_vol` evaluates to NaN — it
returns NaN to the caller instead of failing with a NumericalError (no such
exception exists in the source). -/
theorem portfolio_vol_returns_nan :
    quadForm [1] [[-1]] < 0 ∧ portfolio_vol [1] [[-1]] = PyFloat.nan := by
  have h : quadForm [1] [[-1]] = -1 := by norm_num [quadForm, dot, matvec]
  refine ⟨by rw [h]; norm_num, ?_⟩
  unfold portfolio_vol pyPowHalf
  rw [if_neg (by rw [h]; norm_num)]

/-- C2 amended: whenever the radicand `wᵀ C w` is negative, `portfolio_vol`
returns NaN (numpy's result for a negative radicand under `** 0.5`) rather
than raising; it never produces a real value in that case, but no
NumericalError is raised either. -/
theorem portfolio_vol_neg_radicand_is_nan (w : List ℚ) (cov : List (List ℚ))
    (hneg : quadForm w cov < 0) : portfolio_vol w cov = PyFloat.nan := by
  unfold portfolio_vol pyPowHalf
  rw [if_neg (not_le.mpr hneg)]

/-- Witness for the amended C2 at the concrete non-PSD input. -/
theorem portfolio_vol_neg_radicand_is_nan_witness :
    quadForm [2] [[-3]] < 0 ∧ portfolio_vol [2] [[-3]] = PyFloat.nan :=
  ⟨by norm_num [quadForm, dot, matvec],
    portfolio_vol_neg_radicand_is_nan [2] [[-3]] (by norm_num [quadForm, dot, matvec])⟩

/-! ## C4: the constraints are not guaranteed on the returned weights -/

/-- Unfolding lemma: dot product with the empty vector on the left. -/
theorem dot_nil_left (v : List ℚ) : dot [] v = 0 := rfl

/-- Unfolding lemma: dot product with the empty vector on the right. -/
theorem dot_nil_right (w : List ℚ) : dot w [] = 0 := by cases w <;> rfl

/-- Unfolding lemma: dot product of two cons cells. -/
theorem dot_cons_cons (x y : ℚ) (w v : List ℚ) :
    dot (x :: w) (y :: v) = x * y + dot w v := by
  simp [dot]

/-- Any weight vector with components in `[0, 1]` has portfolio return at most
`3/20` against the expected-returns vector `[1/20, 1/10]`. -/
theorem dot_le_of_box (w : List ℚ) (h : ∀ x ∈ w, 0 ≤ x ∧ x ≤ 1) :
    dot w [1/20, 1/10] ≤ 3/20 := by
  match w with
  | [] => norm_num [dot_nil_left]
  | [a] =>
    have ha := h a (by simp)
    rw [dot_cons_cons, dot_nil_left]
    nlinarith [ha.1, ha.2]
  | a :: b :: t =>
    have ha := h a (by simp)
    have hb := h b (by simp)
    rw [dot_cons_cons, dot_cons_cons, dot_nil_right]
    nlinarith [ha.1, ha.2, hb.1, hb.2]

/-- C4 counterexample: the target return `2` is infeasible over
`er = [1/20, 1/10]`, yet `minimize_vol` accepts the input and returns the
solver's final iterate; that weight vector has components in `[0, 1]` and sums
to `1` but its portfolio return misses the target by far more than any solver
tolerance. -/
theorem minvol_accepts_infeasible_target :
    minimize_vol
        (constSolver [1/2, 1/2] false "Positive directional derivative for linesearch")
        2 [1/20, 1/10] [[1/100, 0], [0, 1/25]] = [1/2, 1/2] ∧
      (∀ x ∈ [(1 : ℚ)/2, 1/2], 0 ≤ x ∧ x ≤ 1) ∧ ([(1 : ℚ)/2, 1/2].sum = 1) ∧
      ¬ |portfolio_return [(1 : ℚ)/2, 1/2] [1/20, 1/10] - 2| ≤ 1/100000000 := by
  refine ⟨rfl, ?_, by norm_num, ?_⟩
  · intro x hx
    simp at hx
    subst hx
    norm_num
  · have hpr : portfolio_return [(1 : ℚ)/2, 1/2] [1/20, 1/10] = 3/40 := by
      norm_num [portfolio_return, dot]
    rw [hpr]
    intro habs
    rw [abs_le] at habs
    linarith [habs.1]

/-- C4 amended: `minimize_vol` guarantees nothing about its output by itself —
it returns the solver's `results.x` unverified. For the infeasible target
return `2` over `er = [1/20, 1/10]`, any returned vector whose components lie
in `[0, 1]` necessarily violates the target-return constraint: the claimed
guarantees hold only when the SLSQP solver itself converges on a feasible
target. -/
theorem minvol_output_misses_infeasible_target (slsqp : SLSQP) (cov : List (List ℚ))
    (hbox : ∀ x ∈ minimize_vol slsqp 2 [1/20, 1/10] cov, 0 ≤ x ∧ x ≤ 1) :
    ¬ |portfolio_return (minimize_vol slsqp 2 [1/20, 1/10] cov) [1/20, 1/10] - 2| ≤
      1/100000000 := by
  have hle := dot_le_of_box (minimize_vol slsqp 2 [1/20, 1/10] cov) hbox
  intro habs
  rw [abs_le] at habs
  have h1 := habs.1
  unfold portfolio_return at h1
  linarith

/-- Witness for the amended C4 at a concrete solver outcome for the infeasible
target. -/
theorem minvol_output_misses_infeasible_target_witness :
    (∀ x ∈ minimize_vol
        (constSolver [1/2, 1/2] false "Positive directional derivative for linesearch")
        2 [1/20, 1/10] [[1/100, 0], [0, 1/25]], 0 ≤ x ∧ x ≤ 1) ∧
      ¬ |portfolio_return
          (minimize_vol
            (constSolver [1/2, 1/2] false "Positive directional derivative for linesearch")
            2 [1/20, 1/10] [[1/100, 0], [0, 1/25]]) [1/20, 1/10] - 2| ≤
        1/100000000 := by
  have hbox : ∀ x ∈ minimize_vol
      (constSolver [1/2, 1/2] false "Positive directional derivative for linesearch")
      2 [1/20, 1/10] [[1/100, 0], [0, 1/25]], 0 ≤ x ∧ x ≤ 1 := by
    intro x hx
    have hx' : x ∈ [(1 : ℚ)/2, 1/2] := hx
    simp at hx'
    subst hx'
    norm_num
  exact ⟨hbox, minvol_output_misses_infeasible_target
    (constSolver [1/2, 1/2] false "Positive directional derivative for linesearch")
    [[1/100, 0], [0, 1/25]] hbox⟩

/-! ## C7: `portfolio_vol` computes a nonnegative square root on PSD input -/

/-- C7: for every weight vector with components in `[0, 1]` summing to `1` and
every positive-semidefinite covariance matrix (every quadratic form value is
nonnegative), `portfolio_vol` computes exactly the square root of
`wᵀ C w` and that value is nonnegative. -/
theorem portfolio_vol_is_sqrt_and_nonneg (w : List ℚ) (cov : List (List ℚ))
    (hbox : ∀ x ∈ w, 0 ≤ x ∧ x ≤ 1) (hsum : w.sum = 1)
    (hpsd : ∀ v : List ℚ, 0 ≤ quadForm v cov) :
    portfolio_vol w cov = PyFloat.real (Real.sqrt ((quadForm w cov : ℚ) : ℝ)) ∧
      0 ≤ Real.sqrt ((quadForm w cov : ℚ) : ℝ) := by
  refine ⟨?_, Real.sqrt_nonneg _⟩
  unfold portfolio_vol pyPowHalf
  rw [if_pos (hpsd w)]

/-- The 2×2 identity matrix is positive semidefinite for the list quadratic
form. -/
theorem psd_id2 : ∀ v : List ℚ, 0 ≤ quadForm v [[1, 0], [0, 1]] := by
  intro v
  match v with
  | [] => norm_num [quadForm, matvec, dot_nil_left]
  | [a] =>
    have h : quadForm [a] [[1, 0], [0, 1]] = a * a := by
      simp [quadForm, matvec, dot, List.zipWith]
    rw [h]
    nlinarith [sq_nonneg a]
  | a :: b :: t =>
    have h : quadForm (a :: b :: t) [[1, 0], [0, 1]] = a * a + b * b := by
      simp [quadForm, matvec, dot, List.zipWith]
    rw [h]
    nlinarith [sq_nonneg a, sq_nonneg b]

/-- Witness for C7 at the equal-weight two-asset portfolio and the identity
covariance matrix. -/
theorem portfolio_vol_is_sqrt_and_nonneg_witness :
    (∀ x ∈ [(1 : ℚ)/2, 1/2], 0 ≤ x ∧ x ≤ 1) ∧ ([(1 : ℚ)/2, 1/2].sum = 1) ∧
      (∀ v : List ℚ, 0 ≤ quadForm v [[1, 0], [0, 1]]) ∧
      (portfolio_vol [(1 : ℚ)/2, 1/2] [[1, 0], [0, 1]] =
          PyFloat.real (Real.sqrt ((quadForm [(1 : ℚ)/2, 1/2] [[1, 0], [0, 1]] : ℚ) : ℝ)) ∧
        0 ≤ Real.sqrt ((quadForm [(1 : ℚ)/2, 1/2] [[1, 0], [0, 1]] : ℚ) : ℝ)) := by
  have hbox : ∀ x ∈ [(1 : ℚ)/2, 1/2], 0 ≤ x ∧ x ≤ 1 := by
    intro x hx
    simp at hx
    subst hx
    norm_num
  exact ⟨hbox, by norm_num, psd_id2,
    portfolio_vol_is_sqrt_and_nonneg [(1 : ℚ)/2, 1/2] [[1, 0], [0, 1]] hbox
      (by norm_num) psd_id2⟩

/-! ## C9: positive homogeneity of `portfolio_vol` -/

/-- Scaling the left argument of the dot product scales the result. -/
theorem dot_map_mul_left (a : ℚ) (w v : List ℚ) :
    dot (w.map (fun x => a * x)) v = a * dot w v := by
  induction w generalizing v with
  | nil => simp [dot_nil_left]
  | cons x t ih =>
    cases v with
    | nil => simp [dot_nil_right]
    | cons y tv =>
      simp only [List.map_cons, dot_cons_cons, ih]
      ring

/-- Scaling the right argument of the dot product scales the result. -/
theorem dot_map_mul_right (a : ℚ) (w v : List ℚ) :
    dot w (v.map (fun x => a * x)) = a * dot w v := by
  induction w generalizing v with
  | nil => simp [dot_nil_left]
  | cons x t ih =>
    cases v with
    | nil => simp [dot_nil_right]
    | cons y tv =>
      simp only [List.map_cons, dot_cons_cons, ih]
      ring

/-- Matrix-vector multiplication commutes with scaling the vector. -/
theorem matvec_map_mul (a : ℚ) (C : List (List ℚ)) (v : List ℚ) :
    matvec C (v.map (fun x => a * x)) = (matvec C v).map (fun x => a * x) := by
  simp [matvec, List.map_map, Function.comp, dot_map_mul_right]

/-- The quadratic form is homogeneous of degree two in the weights. -/
theorem quadForm_map_mul (a : ℚ) (w : List ℚ) (C : List (List ℚ)) :
    quadForm (w.map (fun x => a * x)) C = a ^ 2 * quadForm w C := by
  unfold quadForm
  rw [matvec_map_mul, dot_map_mul_left, dot_map_mul_right]
  ring

/-- C9: `portfolio_vol` is positively homogeneous in the weights: scaling the
weight vector by a nonnegative scalar `a` scales the volatility by `a`,
whenever the radicand of the unscaled problem is nonnegative. -/
theorem portfolio_vol_positively_homogeneous (a : ℚ) (w : List ℚ) (cov : List (List ℚ))
    (ha : 0 ≤ a) (hq : 0 ≤ quadForm w cov) :
    portfolio_vol (w.map (fun x => a * x)) cov =
      pyMulSR ((a : ℚ) : ℝ) (portfolio_vol w cov) := by
  unfold portfolio_vol pyPowHalf
  rw [quadForm_map_mul]
  have h1 : (0 : ℚ) ≤ a ^ 2 * quadForm w cov := by positivity
  rw [if_pos h1, if_pos hq]
  show PyFloat.real _ = pyMulSR _ (PyFloat.real _)
  unfold pyMulSR
  congr 1
  push_cast
  rw [Real.sqrt_mul (by positivity) ((quadForm w cov : ℚ) : ℝ)]
  rw [Real.sqrt_sq (by exact_mod_cast ha)]

/-- Witness for C9: doubling the equal-weight two-asset portfolio doubles its
volatility against the identity covariance matrix. -/
theorem portfolio_vol_positively_homogeneous_witness :
    (0 ≤ (2 : ℚ)) ∧ (0 ≤ quadForm [(1 : ℚ)/2, 1/2] [[1, 0], [0, 1]]) ∧
      portfolio_vol ([(1 : ℚ)/2, 1/2].map (fun x => 2 * x)) [[1, 0], [0, 1]] =
        pyMulSR (((2 : ℚ) : ℚ) : ℝ) (portfolio_vol [(1 : ℚ)/2, 1/2] [[1, 0], [0, 1]]) :=
  ⟨by norm_num, psd_id2 [(1 : ℚ)/2, 1/2],
    portfolio_vol_positively_homogeneous 2 [(1 : ℚ)/2, 1/2] [[1, 0], [0, 1]]
      (by norm_num) (psd_id2 [(1 : ℚ)/2, 1/2])⟩

/-! ## C8: zero-volatility candidates inside the Max-Sharpe search -/

/-- C8: when a candidate weight vector has zero portfolio volatility
(degenerate covariance, `wᵀ C w = 0`), the objective `neg_sharpe_ratio`
evaluates to an IEEE non-finite value (NaN or a signed infinity, numpy's
result for division by a float zero) — a value the solver machinery consumes,
not an exception — and `msr` still returns the solver's `results.x`: no
division-by-zero error propagates out of `msr`. -/
theorem msr_no_division_error (slsqp : SLSQP) (w : List ℚ) (riskfree_rate : ℚ)
    (er : List ℚ) (cov : List (List ℚ)) (hzero : quadForm w cov = 0) :
    (neg_sharpe_ratio w riskfree_rate er cov = PyFloat.nan ∨
      neg_sharpe_ratio w riskfree_rate er cov = PyFloat.posInf ∨
      neg_sharpe_ratio w riskfree_rate er cov = PyFloat.negInf) ∧
      msr slsqp riskfree_rate er cov = (slsqp (msrProblem riskfree_rate er cov)).x := by
  refine ⟨?_, rfl⟩
  unfold neg_sharpe_ratio portfolio_vol pyPowHalf
  rw [hzero, if_pos le_rfl]
  rw [show ((0 : ℚ) : ℝ) = (0 : ℝ) by norm_num, Real.sqrt_zero]
  rcases lt_trichotomy (portfolio_return w er - riskfree_rate) 0 with h | h | h
  · right; left
    simp [pyDiv, pyNeg, h.ne, not_lt.mpr h.le]
  · left
    simp [pyDiv, pyNeg, h]
  · right; right
    simp [pyDiv, pyNeg, h, h.ne.symm]

/-- Witness for C8: the equal-weight candidate over the zero covariance matrix
has zero volatility, the objective evaluates to negative infinity, and `msr`
still returns the solver's weights. -/
theorem msr_no_division_error_witness :
    quadForm [(1 : ℚ)/2, 1/2] [[0, 0], [0, 0]] = 0 ∧
      ((neg_sharpe_ratio [(1 : ℚ)/2, 1/2] 0 [1/20, 1/10] [[0, 0], [0, 0]] = PyFloat.nan ∨
        neg_sharpe_ratio [(1 : ℚ)/2, 1/2] 0 [1/20, 1/10] [[0, 0], [0, 0]] = PyFloat.posInf ∨
        neg_sharpe_ratio [(1 : ℚ)/2, 1/2] 0 [1/20, 1/10] [[0, 0], [0, 0]] = PyFloat.negInf) ∧
        msr (constSolver [1/2, 1/2] true "Optimization terminated successfully") 0
            [1/20, 1/10] [[0, 0], [0, 0]] =
          (constSolver [1/2, 1/2] true "Optimization terminated successfully"
            (msrProblem 0 [1/20, 1/10] [[0, 0], [0, 0]])).x) := by
  have hz : quadForm [(1 : ℚ)/2, 1/2] [[0, 0], [0, 0]] = 0 := by
    norm_num [quadForm, matvec, dot, List.zipWith]
  exact ⟨hz, msr_no_division_error
    (constSolver [1/2, 1/2] true "Optimization terminated successfully")
    [(1 : ℚ)/2, 1/2] 0 [1/20, 1/10] [[0, 0], [0, 0]] hz⟩

/-! ## C6: the efficient-frontier sweep -/

/-- C6: the frontier builder generates its target returns as
`linspace(er.min(), er.max(), n_points)` — for `n_points = 25` these are the
25 values `min + i * (max - min) / 24`, evenly spaced and inclusive of both
endpoints — invokes `minimize_vol` once per target, and (for expected returns
that span a nondegenerate range) the target-return coordinates of the 25
frontier points are strictly increasing; `plot_ef` derives exactly 25
return/volatility pairs from the 25 optimized weight vectors. -/
theorem efficient_frontier_25_points (slsqp : SLSQP) (er : List ℚ) (cov : List (List ℚ))
    (hspan : npMin er < npMax er) :
    optimal_weights slsqp er cov 25 =
        (linspace (npMin er) (npMax er) 25).map
          (fun target_return => minimize_vol slsqp target_return er cov) ∧
      linspace (npMin er) (npMax er) 25 =
        (List.range 25).map
          (fun i : ℕ => npMin er + (i : ℚ) * ((npMax er - npMin er) / 24)) ∧
      (linspace (npMin er) (npMax er) 25).length = 25 ∧
      (linspace (npMin er) (npMax er) 25).Pairwise (fun s t => s < t) ∧
      (linspace (npMin er) (npMax er) 25)[0]? = some (npMin er) ∧
      (linspace (npMin er) (npMax er) 25)[24]? = some (npMax er) ∧
      (plot_ef_rets slsqp er cov 25).length = 25 ∧
      (plot_ef_vols slsqp er cov 25).length = 25 := by
  have hlin : linspace (npMin er) (npMax er) 25 =
      (List.range 25).map
        (fun i : ℕ => npMin er + (i : ℚ) * ((npMax er - npMin er) / 24)) := by
    unfold linspace
    rw [if_neg (by norm_num), if_neg (by norm_num)]
    congr 1
    funext i
    norm_num
  have hstep : (0 : ℚ) < (npMax er - npMin er) / 24 := by
    have hd : (0 : ℚ) < npMax er - npMin er := sub_pos.mpr hspan
    positivity
  refine ⟨rfl, hlin, ?_, ?_, ?_, ?_, ?_, ?_⟩
  · rw [hlin, List.length_map, List.length_range]
  · rw [hlin]
    refine (List.pairwise_lt_range 25).map _ ?_
    intro i j hij
    have hc : (i : ℚ) < (j : ℚ) := by exact_mod_cast hij
    exact add_lt_add_left (mul_lt_mul_of_pos_right hc hstep) (npMin er)
  · rw [hlin]
    simp only [List.getElem?_map, List.getElem?_range]
    norm_num
  · rw [hlin]
    simp only [List.getElem?_map, List.getElem?_range]
    norm_num
    field_simp
  · simp only [plot_ef_rets, optimal_weights, hlin, List.length_map, List.length_range]
  · simp only [plot_ef_vols, optimal_weights, hlin, List.length_map, List.length_range]

/-- Concrete expected returns for the frontier witness. -/
def erW : List ℚ := [1/20, 1/10]

/-- Concrete covariance matrix for the frontier witness. -/
def covW : List (List ℚ) := [[1/100, 0], [0, 1/25]]

/-- Concrete converged solver outcome for the frontier witness. -/
def okSolver : SLSQP := constSolver [1/2, 1/2] true "Optimization terminated successfully"

/-- Witness for C6 at the concrete two-asset inputs. -/
theorem efficient_frontier_25_points_witness :
    npMin erW < npMax erW ∧
      (optimal_weights okSolver erW covW 25 =
          (linspace (npMin erW) (npMax erW) 25).map
            (fun target_return => minimize_vol okSolver target_return erW covW) ∧
        linspace (npMin erW) (npMax erW) 25 =
          (List.range 25).map
            (fun i : ℕ => npMin erW + (i : ℚ) * ((npMax erW - npMin erW) / 24)) ∧
        (linspace (npMin erW) (npMax erW) 25).length = 25 ∧
        (linspace (npMin erW) (npMax erW) 25).Pairwise (fun s t => s < t) ∧
        (linspace (npMin erW) (npMax erW) 25)[0]? = some (npMin erW) ∧
        (linspace (npMin erW) (npMax erW) 25)[24]? = some (npMax erW) ∧
        (plot_ef_rets okSolver erW covW 25).length = 25 ∧
        (plot_ef_vols okSolver erW covW 25).length = 25) := by
  have hspan : npMin erW < npMax erW := by
    norm_num [erW, npMin, npMax, List.foldl, min_def, max_def]
  exact ⟨hspan, efficient_frontier_25_points okSolver erW covW hspan⟩
